import Mathlib

/-!
# Verification of the insider-message-service delivery core

Shallow embedding of the message data model (`internal/domain/message.go`),
the repository row operations (`internal/repository/message_repository.go`,
read as pure transformers over a list of rows, one row per SQL-affected
tuple), the message service (`internal/service`: `ProcessUnsentMessages`,
`deliverMessage`, `CreateMessage`) and the scheduler bookkeeping
(`internal/scheduler/scheduler.go`: `StartWithParams`, `Start`,
`processMessages`, `sendAlert`).

Conventions of the embedding:
* timestamps are `Nat` (an abstract clock value supplied by the caller,
  standing for `time.Now()` / `CURRENT_TIMESTAMP`);
* SQL `NULL` columns are `Option`s;
* Go errors are `Option String` (`none` = `nil`) or `Except String`;
* Go strings are Lean `String`s; `len`/slicing are `String.length` /
  `String.take` (the test inputs are ASCII, where Go byte indexing and
  character indexing agree);
* the `math/rand` draw (`rand.Float64()`) is an explicit stream of
  rationals supplied to `ProcessUnsentMessages`, constrained to `[0,1)`
  where a claim depends on the range of `Float64`;
* collaborators behind Go interfaces (`messageRepository`,
  `webhookClient`, `redisClient`, `messageProcessor`) are explicit
  function parameters, mirroring how the Go code is written against
  interfaces and exercised with fakes.
-/

namespace InsiderMessageService

/-- Message status, `internal/domain/message.go` (`pending` / `sent` / `failed`). -/
inductive MessageStatus where
  | pending
  | sent
  | failed
deriving DecidableEq, Repr

/-- One `messages` row, `internal/domain/message.go` `Message`.
`message_id` and `sent_at` are nullable columns. -/
structure Message where
  id : Int
  content : String
  phoneNumber : String
  status : MessageStatus
  messageID : Option String
  sentAt : Option Nat
  createdAt : Nat
  updatedAt : Nat
deriving DecidableEq, Repr

/-- `internal/domain/message.go` `SendResult`: the per-attempt outcome
record produced by `deliverMessage`. -/
structure SendResult where
  messageDBID : Int
  messageID : String
  success : Bool
  error : Option String
  sentAt : Nat
deriving DecidableEq, Repr

/-- `internal/domain/message.go` `WebhookResponse`. -/
structure WebhookResponse where
  message : String
  messageID : String
deriving DecidableEq, Repr

/-- The `messages` table: a list of rows. -/
abbrev Store := List Message

/-! ## Repository operations (`internal/repository/message_repository.go`)

Each SQL statement is read as a pure transformer on the row list.  An
`UPDATE ... WHERE c` maps every row satisfying `c`; `RowsAffected` is the
count of rows satisfying `c` in the pre-state. -/

/-- Insert one row into a list sorted by `created_at` (for `ORDER BY
created_at ASC`; the order among equal keys is unspecified in SQL). -/
def insertByCreated (m : Message) : List Message → List Message
  | [] => [m]
  | x :: xs =>
    if m.createdAt ≤ x.createdAt then m :: x :: xs else x :: insertByCreated m xs

/-- Sort rows by `created_at` ascending (insertion sort). -/
def sortByCreated : List Message → List Message
  | [] => []
  | x :: xs => insertByCreated x (sortByCreated xs)

/-- `GetUnsent`: `SELECT ... WHERE status = 'pending' ORDER BY created_at ASC
LIMIT ?`. -/
def GetUnsent (store : Store) (limit : Nat) : List Message :=
  ((sortByCreated (store.filter (fun m =>
      m.status = MessageStatus.pending))).take limit)

/-- `MarkAsSent`: `UPDATE messages SET status='sent', message_id=?, sent_at=?,
updated_at=CURRENT_TIMESTAMP WHERE id=?`; errors with
`no message found with id %d` when `RowsAffected = 0`. -/
def MarkAsSent (store : Store) (id : Int) (messageID : String) (sentAt now : Nat) :
    Store × Option String :=
  (store.map fun m =>
    if m.id = id then
      { m with status := MessageStatus.sent, messageID := some messageID,
               sentAt := some sentAt, updatedAt := now }
    else m,
   if (store.filter (fun m => m.id = id)).length = 0 then
     some ("no message found with id " ++ toString id)
   else none)

/-- `MarkAsFailed`: `UPDATE messages SET status='failed',
updated_at=CURRENT_TIMESTAMP WHERE id=?`; never errors on zero rows
(it does not inspect `RowsAffected`).  Note it does not touch
`message_id` / `sent_at`. -/
def MarkAsFailed (store : Store) (id : Int) (now : Nat) : Store × Option String :=
  (store.map fun m =>
    if m.id = id then { m with status := MessageStatus.failed, updatedAt := now }
    else m, none)

/-- `ReplayFailedByID`: `UPDATE messages SET status='pending', message_id=NULL,
sent_at=NULL, updated_at=CURRENT_TIMESTAMP WHERE id=? AND status='failed'`;
errors with `no failed message found with id %d` when `RowsAffected = 0`. -/
def ReplayFailedByID (store : Store) (id : Int) (now : Nat) : Store × Option String :=
  (store.map fun m =>
    if m.id = id ∧ m.status = MessageStatus.failed then
      { m with status := MessageStatus.pending, messageID := none,
               sentAt := none, updatedAt := now }
    else m,
   if (store.filter (fun m =>
       m.id = id ∧ m.status = MessageStatus.failed)).length = 0 then
     some ("no failed message found with id " ++ toString id)
   else none)

/-- `ReplayAllFailed`: the same `UPDATE` without the id constraint; returns
`RowsAffected`. -/
def ReplayAllFailed (store : Store) (now : Nat) : Store × Nat :=
  (store.map fun m =>
    if m.status = MessageStatus.failed then
      { m with status := MessageStatus.pending, messageID := none,
               sentAt := none, updatedAt := now }
    else m,
   (store.filter (fun m => m.status = MessageStatus.failed)).length)

/-- Fresh primary key: the `messages.id` column is
`BIGINT AUTO_INCREMENT PRIMARY KEY` (database migration), so an `INSERT`
receives an id strictly larger than every existing one. -/
def freshId (store : Store) : Int :=
  (store.map Message.id).foldr max 0 + 1

/-- `Create`: `INSERT INTO messages (content, phone_number, status, created_at,
updated_at) VALUES (?, ?, 'pending', CURRENT_TIMESTAMP, CURRENT_TIMESTAMP)`,
then the row is read back by id.  `message_id` / `sent_at` default to NULL. -/
def Create (store : Store) (content phoneNumber : String) (now : Nat) :
    Store × Message :=
  let m : Message :=
    { id := freshId store, content := content, phoneNumber := phoneNumber,
      status := MessageStatus.pending, messageID := none, sentAt := none,
      createdAt := now, updatedAt := now }
  (store ++ [m], m)

/-! ## Message service (`internal/service`, `message_service.go`)

The service is written against small interfaces (`messageRepository`,
`webhookClient`, `redisClient`); the embedding takes those collaborators
as parameters.  `RepoOps σ` is the slice of `messageRepository` the
delivery path uses, over an abstract repository state `σ`; `dbRepo`
instantiates it with the row-list semantics above. -/

/-- `environments.MessageConfig`. -/
structure MessageConfig where
  batchSize : Nat
  sendIntervalMinutes : Nat
  maxContentLength : Nat
deriving Repr

/-- The slice of the `messageRepository` interface used by the delivery
path, over an abstract repository state `σ`. -/
structure RepoOps (σ : Type) where
  getUnsent : σ → Nat → Except String (List Message)
  markAsSent : σ → Int → String → Nat → σ × Option String
  markAsFailed : σ → Int → σ × Option String

/-- The real repository (`message_repository.go`) as a `RepoOps` over the
row list. -/
def dbRepo (now : Nat) : RepoOps Store where
  getUnsent := fun store limit => Except.ok (GetUnsent store limit)
  markAsSent := fun store id messageID sentAt => MarkAsSent store id messageID sentAt now
  markAsFailed := fun store id => MarkAsFailed store id now

/-- A `webhookClient`: `SendMessage(phoneNumber, content)` returns a
response or an error. -/
abbrev Webhook := String → String → Except String WebhookResponse

/-- Which collaborator calls one `deliverMessage` invocation performed
(the observations the service tests make on their fakes). -/
structure DeliverTrace where
  transportCalled : Bool
  sentContent : Option String
  markSentCalled : Bool
  markSentResult : Option String
  markFailedCalled : Bool
  cacheWritten : Bool
deriving DecidableEq, Repr

/-- Result of one `deliverMessage` invocation: the repository post-state,
the `SendResult`, and the call trace. -/
structure DeliverOut (σ : Type) where
  repoState : σ
  result : SendResult
  trace : DeliverTrace

/-- The content-length policy of `deliverMessage` (`message_service.go`
lines enforcing `MaxContentLength`): on over-long content, keep the first
`maxContentLength - 3` characters and append `"..."` when
`maxContentLength` exceeds the 3-character ellipsis, otherwise cut to
exactly `maxContentLength`; short content passes through. -/
def deliveredContent (cfg : MessageConfig) (content : String) : String :=
  if content.length > cfg.maxContentLength then
    if cfg.maxContentLength > 3 then
      content.take (cfg.maxContentLength - 3) ++ "..."
    else
      content.take cfg.maxContentLength
  else content

/-- `MessageService.deliverMessage` (`message_service.go`).  Control flow,
in source order: forced-failure short-circuit (`shouldFailAll`), content
truncation (`deliveredContent`; it rebinds only the local copy of the
content), webhook call, `MarkAsFailed` on webhook error, `MarkAsSent` on
success (a failing `MarkAsSent` downgrades the result and skips the
cache), then the best-effort Redis cache write (errors swallowed). -/
def deliverMessage (repo : RepoOps σ) (webhook : Webhook) (redisConfigured : Bool)
    (cfg : MessageConfig) (st : σ) (msg : Message) (shouldFailAll : Bool)
    (now : Nat) : DeliverOut σ :=
  let result0 : SendResult :=
    { messageDBID := msg.id, messageID := "", success := false,
      error := none, sentAt := now }
  if shouldFailAll then
    let r := { result0 with
               success := false,
               error := some "simulated failure for testing" }
    { repoState := (repo.markAsFailed st msg.id).1,
      result := r,
      trace := { transportCalled := false, sentContent := none,
                 markSentCalled := false, markSentResult := none,
                 markFailedCalled := true, cacheWritten := false } }
  else
    let content := deliveredContent cfg msg.content
    match webhook msg.phoneNumber content with
    | Except.error e =>
      let r := { result0 with success := false, error := some e }
      { repoState := (repo.markAsFailed st msg.id).1,
        result := r,
        trace := { transportCalled := true, sentContent := some content,
                   markSentCalled := false, markSentResult := none,
                   markFailedCalled := true, cacheWritten := false } }
    | Except.ok resp =>
      match (repo.markAsSent st msg.id resp.messageID now).2 with
      | some e =>
        let r := { result0 with success := false, error := some e }
        { repoState := (repo.markAsSent st msg.id resp.messageID now).1,
          result := r,
          trace := { transportCalled := true, sentContent := some content,
                     markSentCalled := true, markSentResult := some e,
                     markFailedCalled := false, cacheWritten := false } }
      | none =>
        let r := { result0 with success := true, messageID := resp.messageID }
        { repoState := (repo.markAsSent st msg.id resp.messageID now).1,
          result := r,
          trace := { transportCalled := true, sentContent := some content,
                     markSentCalled := true, markSentResult := none,
                     markFailedCalled := false, cacheWritten := redisConfigured } }

/-- The per-message loop body of `ProcessUnsentMessages`: the `i`-th
message consumes the `i`-th `rand.Float64()` draw; `shouldFail` is
`draw < failureRate`. -/
def processLoop (repo : RepoOps σ) (webhook : Webhook) (redisConfigured : Bool)
    (cfg : MessageConfig) (failureRate : ℚ) (draws : Nat → ℚ) (now : Nat) :
    σ → Nat → List Message → σ × List SendResult × List DeliverTrace
  | st, _, [] => (st, [], [])
  | st, i, msg :: rest =>
    let shouldFail := decide (draws i < failureRate)
    let out := deliverMessage repo webhook redisConfigured cfg st msg shouldFail now
    let (st2, results, traces) :=
      processLoop repo webhook redisConfigured cfg failureRate draws now
        out.repoState (i + 1) rest
    (st2, out.result :: results, out.trace :: traces)

/-- `MessageService.ProcessUnsentMessages`: fetch at most `batchSize`
pending messages; a `GetUnsent` error is wrapped and propagated; an empty
batch returns `nil` results (modelled `none`); otherwise each message is
delivered with its own failure-injection draw. -/
def ProcessUnsentMessages (repo : RepoOps σ) (webhook : Webhook)
    (redisConfigured : Bool) (cfg : MessageConfig) (st : σ)
    (failureRate : ℚ) (draws : Nat → ℚ) (now : Nat) :
    Except String (σ × Option (List SendResult) × List DeliverTrace) :=
  match repo.getUnsent st cfg.batchSize with
  | Except.error e => Except.error ("failed to get unsent messages: " ++ e)
  | Except.ok messages =>
    if messages.isEmpty then
      Except.ok (st, none, [])
    else
      let (st', results, traces) :=
        processLoop repo webhook redisConfigured cfg failureRate draws now
          st 0 messages
      Except.ok (st', some results, traces)

/-- `MessageService.CreateMessage` over the row-list store: rejects
over-long content with `content exceeds maximum length of %d characters`
before any repository call, otherwise delegates to the repository's
`Create`.  The returned `Bool` records whether the repository's create
operation was invoked. -/
def CreateMessage (cfg : MessageConfig) (store : Store)
    (content phoneNumber : String) (now : Nat) :
    Store × Except String Message × Bool :=
  if content.length > cfg.maxContentLength then
    (store,
     Except.error ("content exceeds maximum length of "
       ++ toString cfg.maxContentLength ++ " characters"),
     false)
  else
    ((Create store content phoneNumber now).1,
     Except.ok (Create store content phoneNumber now).2, true)

/-! ## Scheduler (`internal/scheduler/scheduler.go`)

The scheduler's mutable fields are a record; the goroutine/lock machinery
is sequentialized (every mutation happens under the lock in the source).
`Start`'s only state effect is flipping `running`; whether it launches the
loop goroutine is returned as a flag. -/

/-- The mutable fields of `scheduler.Scheduler`.  `interval` is kept in
minutes (the source stores `time.Duration(intervalMinutes) * time.Minute`).
Go `int`/`int64` counters are `Int`. -/
structure SchedulerState where
  intervalMinutes : Int
  failureRate : ℚ
  alertWebhook : String
  alertThreshold : Int
  lastAlertSentAt : Option Nat
  running : Bool
  lastRunAt : Option Nat
  messagesSent : Int
  runsCount : Int
  consecutiveAllFailCount : Int
deriving DecidableEq, Repr

/-- Result of `Start` / `StartWithParams`: the post-state and whether the
`run` loop goroutine was launched by this call. -/
structure StartEffect where
  state : SchedulerState
  launched : Bool
deriving DecidableEq, Repr

/-- `Scheduler.Start`: if already running, warn and return `nil` without
touching any state; otherwise set `running` and launch the loop. -/
def Start (st : SchedulerState) : StartEffect :=
  if st.running then
    { state := st, launched := false }
  else
    { state := { st with running := true }, launched := true }

/-- `Scheduler.StartWithParams`: default a non-positive interval to 120
minutes, then (unconditionally, before checking `running`) overwrite
`interval`, `failureRate`, `alertWebhook`, `alertThreshold` and reset
`consecutiveAllFailCount` to 0 under the lock, then call `Start`. -/
def StartWithParams (st : SchedulerState) (intervalMinutes : Int)
    (failureRate : ℚ) (alertWebhook : String) (alertThreshold : Int) :
    StartEffect :=
  let im := if intervalMinutes ≤ 0 then 120 else intervalMinutes
  Start { st with
          intervalMinutes := im,
          failureRate := failureRate,
          alertWebhook := alertWebhook,
          alertThreshold := alertThreshold,
          consecutiveAllFailCount := 0 }

/-- `Scheduler.Stop`: if not running, a no-op; otherwise clear `running`
(the loop-join synchronization has no further state effect). -/
def Stop (st : SchedulerState) : SchedulerState :=
  if st.running then { st with running := false } else st

/-- Result of one `processMessages` pass: the post-state and whether a
`sendAlert` goroutine was spawned. -/
structure ProcessEffect where
  state : SchedulerState
  alertAttempted : Bool
deriving DecidableEq, Repr

/-- `Scheduler.processMessages`, one pass.  The service call result is a
parameter (the scheduler is written against the `messageProcessor`
interface): `Except.error` = the service returned an error, `Except.ok
none` = `nil` results (empty batch), `Except.ok (some rs)` = a processed
batch.  Faithful to source order: `lastRunAt`/`runsCount` are updated and
the alert parameters captured before the service call; afterwards
`messagesSent` grows by the success count and the consecutive-all-fail
counter is incremented (alerting if it reaches the threshold) or reset. -/
def processMessages (st : SchedulerState)
    (res : Except String (Option (List SendResult))) (now : Nat) :
    ProcessEffect :=
  let st1 := { st with lastRunAt := some now, runsCount := st.runsCount + 1 }
  match res with
  | Except.error _ => { state := st1, alertAttempted := false }
  | Except.ok none => { state := st1, alertAttempted := false }
  | Except.ok (some results) =>
    let successCount := (results.filter (fun r => r.success)).length
    let allFailed := results.all (fun r => !r.success)
    let st2 := { st1 with messagesSent := st1.messagesSent + successCount }
    if allFailed ∧ results.length > 0 then
      let st3 := { st2 with
                   consecutiveAllFailCount := st2.consecutiveAllFailCount + 1 }
      { state := st3,
        alertAttempted :=
          decide (st3.consecutiveAllFailCount ≥ st.alertThreshold)
            && decide (st.alertThreshold > 0)
            && decide (st.alertWebhook ≠ "") }
    else
      { state := { st2 with consecutiveAllFailCount := 0 },
        alertAttempted := false }

/-- `Scheduler.sendAlert`'s effect on scheduler state: on a 200/204
response record `lastAlertSentAt` under the lock; otherwise nothing.  No
counter is touched on either path. -/
def sendAlertEffect (st : SchedulerState) (httpStatus : Nat) (now : Nat) :
    SchedulerState :=
  if httpStatus = 200 ∨ httpStatus = 204 then
    { st with lastAlertSentAt := some now }
  else st

/-- One composed scheduler pass over the real store:
`processMessages` around `MessageService.ProcessUnsentMessages` with the
repository instantiated by the row-list semantics.  Returns the store
post-state, the scheduler effect, and the per-message delivery traces. -/
def schedulerPass (webhook : Webhook) (redisConfigured : Bool)
    (cfg : MessageConfig) (store : Store) (st : SchedulerState)
    (draws : Nat → ℚ) (now : Nat) :
    Store × ProcessEffect × List DeliverTrace :=
  match ProcessUnsentMessages (dbRepo now) webhook redisConfigured cfg store
      st.failureRate draws now with
  | Except.error e => (store, processMessages st (Except.error e) now, [])
  | Except.ok (store', results, traces) =>
    (store', processMessages st (Except.ok results) now, traces)

/-! ## The public operations on the message table, as a transition system

`Op` covers the operations quantified over by the state-machine claims:
message creation (service `CreateMessage`), a delivery attempt on a
Pending message (`deliverMessage`; the batch-fetch contract guarantees
delivery is only invoked on rows `GetUnsent` returned, i.e. Pending ones,
so the transition is guarded on the target being a Pending row), and the
two replay operations. -/

/-- One public operation on the message table. -/
inductive Op where
  | create (content phoneNumber : String) (now : Nat)
  | deliver (id : Int) (shouldFail : Bool)
      (webhookRes : Except String WebhookResponse) (now : Nat)
  | replayOne (id : Int) (now : Nat)
  | replayAll (now : Nat)

/-- Apply one operation to the message table. -/
def applyOp (cfg : MessageConfig) (store : Store) : Op → Store
  | Op.create content phoneNumber now =>
    (CreateMessage cfg store content phoneNumber now).1
  | Op.deliver id shouldFail webhookRes now =>
    match store.find? (fun m =>
        m.id = id ∧ m.status = MessageStatus.pending) with
    | some msg =>
      (deliverMessage (dbRepo now) (fun _ _ => webhookRes) true cfg store msg
        shouldFail now).repoState
    | none => store
  | Op.replayOne id now => (ReplayFailedByID store id now).1
  | Op.replayAll now => (ReplayAllFailed store now).1

/-- Apply a sequence of operations, left to right. -/
def applyOps (cfg : MessageConfig) (store : Store) (ops : List Op) : Store :=
  ops.foldl (applyOp cfg) store

/-- The documented row invariant: the delivery identifier and the sent
timestamp are present if and only if the row is Sent. -/
def StatusInv (m : Message) : Prop :=
  m.status = MessageStatus.sent ↔ (m.messageID ≠ none ∧ m.sentAt ≠ none)

instance (m : Message) : Decidable (StatusInv m) := by
  unfold StatusInv; infer_instance

/-- Well-formed table: primary keys are distinct (`id` is
`AUTO_INCREMENT PRIMARY KEY`) and every row satisfies `StatusInv`. -/
def StoreWF (store : Store) : Prop :=
  (store.map Message.id).Nodup ∧ ∀ m ∈ store, StatusInv m

instance (store : Store) : Decidable (StoreWF store) := by
  unfold StoreWF; infer_instance

/-! ## Derived quantities and concrete fixtures -/

/-- Number of successful outcomes in a batch (`successCount` in
`processMessages`). -/
def successCount (results : List SendResult) : Nat :=
  (results.filter (fun r => r.success)).length

/-- The `SendResult` produced by the forced-failure branch of
`deliverMessage` for a message `m`. -/
def forcedResult (now : Nat) (m : Message) : SendResult :=
  { messageDBID := m.id, messageID := "", success := false,
    error := some "simulated failure for testing", sentAt := now }

/-- The call trace of the forced-failure branch of `deliverMessage`. -/
def forcedTrace : DeliverTrace :=
  { transportCalled := false, sentContent := none, markSentCalled := false,
    markSentResult := none, markFailedCalled := true, cacheWritten := false }

/-- A pending row, as seeded by the service tests. -/
def msgPending : Message :=
  { id := 1, content := "0123456789ABCDEFGHIJ", phoneNumber := "+905551234567",
    status := MessageStatus.pending, messageID := none, sentAt := none,
    createdAt := 0, updatedAt := 0 }

/-- A sent row (delivery identifier and sent timestamp present). -/
def msgSent : Message :=
  { id := 2, content := "done", phoneNumber := "+905551234567",
    status := MessageStatus.sent, messageID := some "m-2", sentAt := some 3,
    createdAt := 1, updatedAt := 3 }

/-- A failed row. -/
def msgFailed : Message :=
  { id := 3, content := "oops", phoneNumber := "+905551234567",
    status := MessageStatus.failed, messageID := none, sentAt := none,
    createdAt := 2, updatedAt := 4 }

/-- The configuration the service tests use to force truncation
(`BatchSize: 2, MaxContentLength: 10`). -/
def cfgDemo : MessageConfig :=
  { batchSize := 2, sendIntervalMinutes := 2, maxContentLength := 10 }

/-- A webhook double that always accepts (the tests' `fakeWebhookClient`
with `shouldFail: false`). -/
def okWebhook : Webhook :=
  fun _ _ => Except.ok { message := "Accepted", messageID := "msg-123" }

/-- A repository double whose `MarkAsSent` always reports a database
error (for the store-confirmation claims). -/
def failingMarkSentRepo : RepoOps Unit where
  getUnsent := fun _ _ => Except.ok [msgPending]
  markAsSent := fun _ _ _ _ => ((), some "db down")
  markAsFailed := fun _ _ => ((), none)

/-- A running scheduler state with live counters. -/
def runningSt : SchedulerState :=
  { intervalMinutes := 2, failureRate := 0, alertWebhook := "http://alerts",
    alertThreshold := 3, lastAlertSentAt := none, running := true,
    lastRunAt := some 1, messagesSent := 4, runsCount := 5,
    consecutiveAllFailCount := 2 }

/-- A scheduler state whose failure streak already meets its alert
threshold (webhook configured). -/
def streakSt : SchedulerState :=
  { intervalMinutes := 2, failureRate := 0, alertWebhook := "http://alerts",
    alertThreshold := 1, lastAlertSentAt := none, running := true,
    lastRunAt := some 1, messagesSent := 0, runsCount := 3,
    consecutiveAllFailCount := 1 }

/-- The three-outcome batch `[success, fail, success]` of the scheduler
tests. -/
def mixedResults : List SendResult :=
  [{ messageDBID := 1, messageID := "a", success := true, error := none, sentAt := 0 },
   { messageDBID := 2, messageID := "", success := false,
     error := some "x", sentAt := 0 },
   { messageDBID := 3, messageID := "c", success := true, error := none, sentAt := 0 }]

/-- A two-outcome batch `[fail, fail]`. -/
def failResults : List SendResult :=
  [{ messageDBID := 1, messageID := "", success := false,
     error := some "x", sentAt := 0 },
   { messageDBID := 2, messageID := "", success := false,
     error := some "x", sentAt := 0 }]

/-- A demonstration operation sequence: create two messages, deliver one
successfully and one with a transport error, replay the failed one, then
replay-all. -/
def demoOps : List Op :=
  [Op.create "hello" "+905551234567" 0,
   Op.create "world" "+905551234567" 1,
   Op.deliver 1 false (Except.ok { message := "Accepted", messageID := "m-1" }) 2,
   Op.deliver 2 false (Except.error "timeout") 3,
   Op.replayOne 2 4,
   Op.replayAll 5]

/-! ## Helper lemmas -/

/-- The `allFailed` flag computed by `processMessages` is equivalent to a
zero success count. -/
lemma allFailed_iff (results : List SendResult) :
    (results.all (fun r => !r.success) = true) ↔ successCount results = 0 := by
  simp [successCount, List.length_eq_zero, List.filter_eq_nil_iff,
    List.all_eq_true]

/-- Character count of a string prefix. -/
lemma length_take_string (s : String) (n : Nat) :
    (s.take n).length = min n s.length := by
  rw [String.length, String.data_take, List.length_take, String.length]

/-- A row rewrite that keeps every row's content keeps the table's content
column. -/
lemma map_content_update (store : Store) (f : Message → Message)
    (h : ∀ m, (f m).content = m.content) :
    (store.map f).map Message.content = store.map Message.content := by
  rw [List.map_map]
  exact List.map_congr_left fun m _ => h m

/-- Every member of an integer list is bounded by its `foldr max 0`. -/
lemma foldr_max_mem_le (l : List Int) : ∀ x ∈ l, x ≤ l.foldr max 0 := by
  induction l with
  | nil => intro x hx; cases hx
  | cons a t ih =>
    intro x hx
    rcases List.mem_cons.1 hx with rfl | hx
    · exact le_max_left _ _
    · exact le_trans (ih x hx) (le_max_right _ _)

/-- The fresh auto-increment key is not among the existing keys. -/
lemma freshId_not_mem (store : Store) :
    freshId store ∉ store.map Message.id := by
  intro hmem
  have h := foldr_max_mem_le (store.map Message.id) _ hmem
  unfold freshId at h
  omega

/-- A row rewrite that keeps every row's id keeps the table's id column. -/
lemma map_id_map_update (store : Store) (f : Message → Message)
    (hid : ∀ m, (f m).id = m.id) :
    (store.map f).map Message.id = store.map Message.id := by
  rw [List.map_map]
  exact List.map_congr_left fun m _ => hid m

/-- A key-preserving, invariant-preserving row rewrite preserves table
well-formedness. -/
lemma wf_map_update (store : Store) (f : Message → Message)
    (hid : ∀ m, (f m).id = m.id)
    (hinv : ∀ m ∈ store, StatusInv m → StatusInv (f m))
    (h : StoreWF store) : StoreWF (store.map f) := by
  refine ⟨?_, ?_⟩
  · rw [map_id_map_update store f hid]
    exact h.1
  · intro m hm
    obtain ⟨m₀, hm₀, rfl⟩ := List.mem_map.1 hm
    exact hinv m₀ hm₀ (h.2 m₀ hm₀)

/-- `MarkAsSent` preserves table well-formedness (rows it touches become
Sent with both fields set). -/
lemma wf_markAsSent (store : Store) (id : Int) (mid : String) (t now : Nat)
    (h : StoreWF store) : StoreWF (MarkAsSent store id mid t now).1 := by
  show StoreWF (store.map _)
  apply wf_map_update store _ ?_ ?_ h
  · intro m
    by_cases hid : m.id = id <;> simp [hid]
  · intro m hm hInv
    by_cases hid : m.id = id
    · rw [if_pos hid]
      simp [StatusInv]
    · rw [if_neg hid]
      exact hInv

/-- `MarkAsFailed` preserves table well-formedness provided no Sent row
carries the targeted id (it does not clear the nullable columns). -/
lemma wf_markAsFailed (store : Store) (id : Int) (now : Nat)
    (h : StoreWF store)
    (hns : ∀ m ∈ store, m.id = id → m.status ≠ MessageStatus.sent) :
    StoreWF (MarkAsFailed store id now).1 := by
  show StoreWF (store.map _)
  apply wf_map_update store _ ?_ ?_ h
  · intro m
    by_cases hid : m.id = id <;> simp [hid]
  · intro m hm hInv
    by_cases hid : m.id = id
    · rw [if_pos hid]
      have hnb : ¬ (m.messageID ≠ none ∧ m.sentAt ≠ none) :=
        fun hb => hns m hm hid (hInv.mpr hb)
      exact ⟨fun hfs => MessageStatus.noConfusion hfs,
        fun hb => absurd hb hnb⟩
    · rw [if_neg hid]
      exact hInv

/-- `ReplayFailedByID` preserves table well-formedness (rows it touches
become Pending with both fields cleared). -/
lemma wf_replayOne (store : Store) (id : Int) (now : Nat) (h : StoreWF store) :
    StoreWF (ReplayFailedByID store id now).1 := by
  show StoreWF (store.map _)
  apply wf_map_update store _ ?_ ?_ h
  · intro m
    by_cases hc : m.id = id ∧ m.status = MessageStatus.failed <;> simp [hc]
  · intro m hm hInv
    by_cases hc : m.id = id ∧ m.status = MessageStatus.failed
    · rw [if_pos hc]
      exact ⟨fun hfs => MessageStatus.noConfusion hfs,
        fun hb => absurd rfl hb.1⟩
    · rw [if_neg hc]
      exact hInv

/-- `ReplayAllFailed` preserves table well-formedness. -/
lemma wf_replayAll (store : Store) (now : Nat) (h : StoreWF store) :
    StoreWF (ReplayAllFailed store now).1 := by
  show StoreWF (store.map _)
  apply wf_map_update store _ ?_ ?_ h
  · intro m
    by_cases hc : m.status = MessageStatus.failed <;> simp [hc]
  · intro m hm hInv
    by_cases hc : m.status = MessageStatus.failed
    · rw [if_pos hc]
      exact ⟨fun hfs => MessageStatus.noConfusion hfs,
        fun hb => absurd rfl hb.1⟩
    · rw [if_neg hc]
      exact hInv

/-- Service-level creation preserves table well-formedness (the new row is
Pending with both fields null and a fresh key). -/
lemma wf_create (cfg : MessageConfig) (store : Store)
    (content phoneNumber : String) (now : Nat) (h : StoreWF store) :
    StoreWF (CreateMessage cfg store content phoneNumber now).1 := by
  by_cases hlen : content.length > cfg.maxContentLength
  · unfold CreateMessage
    rw [if_pos hlen]
    exact h
  · unfold CreateMessage
    rw [if_neg hlen]
    show StoreWF (store ++ _)
    constructor
    · rw [List.map_append, List.nodup_append]
      refine ⟨h.1, List.nodup_singleton _, ?_⟩
      intro x hx hx'
      have hxf : x = freshId store := by simpa using hx'
      subst hxf
      exact freshId_not_mem store hx
    · intro m hm
      rcases List.mem_append.1 hm with hm | hm
      · exact h.2 m hm
      · have hmc : m = (Create store content phoneNumber now).2 := by
          simpa using hm
        subst hmc
        exact ⟨fun hfs => MessageStatus.noConfusion hfs,
          fun hb => absurd rfl hb.1⟩

/-- The repository post-state of a delivery attempt over the row-list
store is either a `MarkAsFailed` or a `MarkAsSent` on the message's id —
exactly one store-state transition per invocation. -/
lemma deliver_repoState_cases (hook : Webhook) (redis : Bool)
    (cfg : MessageConfig) (store : Store) (msg : Message) (sf : Bool)
    (now : Nat) :
    (deliverMessage (dbRepo now) hook redis cfg store msg sf now).repoState
        = (MarkAsFailed store msg.id now).1 ∨
    (∃ mid, (deliverMessage (dbRepo now) hook redis cfg store msg sf
        now).repoState = (MarkAsSent store msg.id mid now now).1) := by
  cases sf with
  | true => left; rfl
  | false =>
    cases hw : hook msg.phoneNumber (deliveredContent cfg msg.content) with
    | error e =>
      left
      simp only [deliverMessage, hw]
      rfl
    | ok resp =>
      cases hs : ((dbRepo now).markAsSent store msg.id resp.messageID now).2 with
      | some e =>
        right
        exact ⟨resp.messageID, by simp [deliverMessage, hw, hs]; rfl⟩
      | none =>
        right
        exact ⟨resp.messageID, by simp [deliverMessage, hw, hs]; rfl⟩

/-- Every single public operation preserves table well-formedness. -/
lemma wf_applyOp (cfg : MessageConfig) (store : Store) (op : Op)
    (h : StoreWF store) : StoreWF (applyOp cfg store op) := by
  cases op with
  | create content phoneNumber now =>
    exact wf_create cfg store content phoneNumber now h
  | replayOne id now => exact wf_replayOne store id now h
  | replayAll now => exact wf_replayAll store now h
  | deliver id sf webhookRes now =>
    show StoreWF (match store.find? (fun m =>
        m.id = id ∧ m.status = MessageStatus.pending) with
      | some msg => (deliverMessage (dbRepo now) (fun _ _ => webhookRes) true
          cfg store msg sf now).repoState
      | none => store)
    cases hfind : store.find? (fun m =>
        m.id = id ∧ m.status = MessageStatus.pending) with
    | none => exact h
    | some msg =>
      have hmem : msg ∈ store := List.mem_of_find?_eq_some hfind
      have hp := List.find?_some hfind
      have hprop : msg.id = id ∧ msg.status = MessageStatus.pending :=
        of_decide_eq_true hp
      have hns : ∀ m ∈ store, m.id = msg.id →
          m.status ≠ MessageStatus.sent := by
        intro m hm hmid
        have heq : m = msg := List.inj_on_of_nodup_map h.1 hm hmem hmid
        rw [heq, hprop.2]
        decide
      show StoreWF (deliverMessage (dbRepo now) (fun _ _ => webhookRes) true
        cfg store msg sf now).repoState
      rcases deliver_repoState_cases (fun _ _ => webhookRes) true cfg store
          msg sf now with hcase | ⟨mid, hcase⟩
      · rw [hcase]
        exact wf_markAsFailed store msg.id now h hns
      · rw [hcase]
        exact wf_markAsSent store msg.id mid now now h

/-- Every sequence of public operations preserves table well-formedness. -/
lemma wf_applyOps (cfg : MessageConfig) (ops : List Op) :
    ∀ store : Store, StoreWF store → StoreWF (applyOps cfg store ops) := by
  induction ops with
  | nil => intro store h; exact h
  | cons op rest ih =>
    intro store h
    exact ih (applyOp cfg store op) (wf_applyOp cfg store op h)

/-- The per-message loop under `failureRate = 1` forces every delivery to
fail: each message is marked failed in order, the transport is never
consulted, and every outcome is the forced-failure record. -/
lemma processLoop_forced {σ : Type} (repo : RepoOps σ) (webhook : Webhook)
    (redis : Bool) (cfg : MessageConfig) (draws : Nat → ℚ) (now : Nat)
    (hdraw : ∀ i, 0 ≤ draws i ∧ draws i < 1) :
    ∀ (batch : List Message) (st : σ) (i : Nat),
      processLoop repo webhook redis cfg 1 draws now st i batch =
        (batch.foldl (fun s m => (repo.markAsFailed s m.id).1) st,
         batch.map (forcedResult now), batch.map (fun _ => forcedTrace)) := by
  intro batch
  induction batch with
  | nil => intro st i; rfl
  | cons m rest ih =>
    intro st i
    have hlt : decide (draws i < (1:ℚ)) = true := decide_eq_true (hdraw i).2
    simp only [processLoop, hlt, List.foldl_cons, List.map_cons]
    rw [ih]
    simp [deliverMessage, forcedResult, forcedTrace]

/-! ## Claim theorems -/

/-- Claim C1: for every message and every sequence of the public
operations (message creation, deliver applied to a Pending message,
replay-one, replay-all) the invariant `status = Sent ↔ deliveryId ≠ null ∧
sentAt ≠ null` holds on every row of a well-formed table; moreover
creation yields a Pending row with both fields null, mark-sent sets
status Sent together with both fields, mark-failed rewrites only the
status (leaving both fields as they were, hence null on a Pending row),
and replay sets status Pending while clearing both fields. -/
theorem c1_status_invariant (cfg : MessageConfig) :
    (∀ (store : Store) (ops : List Op),
      StoreWF store → StoreWF (applyOps cfg store ops)) ∧
    (∀ (store : Store) (content phoneNumber : String) (now : Nat),
      (Create store content phoneNumber now).2.status
          = MessageStatus.pending ∧
      (Create store content phoneNumber now).2.messageID = none ∧
      (Create store content phoneNumber now).2.sentAt = none) ∧
    (∀ (store : Store) (id : Int) (mid : String) (t now : Nat),
      ∀ m ∈ (MarkAsSent store id mid t now).1, m.id = id →
        m.status = MessageStatus.sent ∧ m.messageID = some mid ∧
        m.sentAt = some t) ∧
    (∀ (store : Store) (id : Int) (now : Nat),
      (MarkAsFailed store id now).1 = store.map (fun m =>
        if m.id = id then
          { m with
            status := MessageStatus.failed, updatedAt := now }
        else m)) ∧
    (∀ (store : Store) (id : Int) (now : Nat) (m : Message), m ∈ store →
      m.id = id → m.status = MessageStatus.failed →
      { m with
        status := MessageStatus.pending, messageID := none,
        sentAt := none, updatedAt := now } ∈
          (ReplayFailedByID store id now).1) ∧
    (∀ (store : Store) (now : Nat) (m : Message), m ∈ store →
      m.status = MessageStatus.failed →
      { m with
        status := MessageStatus.pending, messageID := none,
        sentAt := none, updatedAt := now } ∈ (ReplayAllFailed store now).1) := by
  refine ⟨fun store ops h => wf_applyOps cfg ops store h,
    fun store content phoneNumber now => ⟨rfl, rfl, rfl⟩, ?_, ?_, ?_, ?_⟩
  · intro store id mid t now m hm hid
    obtain ⟨m₀, hm₀, rfl⟩ := List.mem_map.1 hm
    by_cases h0 : m₀.id = id
    · rw [if_pos h0]
      exact ⟨rfl, rfl, rfl⟩
    · rw [if_neg h0] at hid ⊢
      exact absurd hid h0
  · intro store id now
    rfl
  · intro store id now m hm hid hst
    exact List.mem_map.2 ⟨m, hm, by rw [if_pos ⟨hid, hst⟩]⟩
  · intro store now m hm hst
    exact List.mem_map.2 ⟨m, hm, by rw [if_pos hst]⟩

/-- Claim C1, witness: the invariant theorem applied to the empty table
and a concrete sequence of creations, deliveries and replays. -/
theorem c1_witness : StoreWF (applyOps cfgDemo [] demoOps) :=
  (c1_status_invariant cfgDemo).1 [] demoOps (by decide)

/-- Claim C2: a delivery outcome reports success exactly when the store's
mark-sent operation was invoked and returned no error; when the transport
succeeds but mark-sent errors, the outcome is downgraded to failure with
that error recorded and no cache write is performed. -/
theorem c2_success_iff_store_confirms {σ : Type} (repo : RepoOps σ)
    (webhook : Webhook) (redisConfigured : Bool) (cfg : MessageConfig)
    (st : σ) (msg : Message) (shouldFail : Bool) (now : Nat) :
    ((deliverMessage repo webhook redisConfigured cfg st msg shouldFail
        now).result.success = true ↔
      ((deliverMessage repo webhook redisConfigured cfg st msg shouldFail
          now).trace.markSentCalled = true ∧
       (deliverMessage repo webhook redisConfigured cfg st msg shouldFail
          now).trace.markSentResult = none)) ∧
    (∀ resp e, shouldFail = false →
      webhook msg.phoneNumber (deliveredContent cfg msg.content) =
        Except.ok resp →
      (repo.markAsSent st msg.id resp.messageID now).2 = some e →
      (deliverMessage repo webhook redisConfigured cfg st msg shouldFail
          now).result.success = false ∧
      (deliverMessage repo webhook redisConfigured cfg st msg shouldFail
          now).result.error = some e ∧
      (deliverMessage repo webhook redisConfigured cfg st msg shouldFail
          now).trace.cacheWritten = false) := by
  cases shouldFail with
  | true =>
    refine ⟨by simp [deliverMessage], ?_⟩
    rintro resp e hfalse
    cases hfalse
  | false =>
    cases hw : webhook msg.phoneNumber (deliveredContent cfg msg.content) with
    | error e0 =>
      refine ⟨by simp [deliverMessage, hw], ?_⟩
      rintro resp e _ hok
      cases hok
    | ok resp0 =>
      cases hs : (repo.markAsSent st msg.id resp0.messageID now).2 with
      | some e0 =>
        refine ⟨by simp [deliverMessage, hw, hs], ?_⟩
        rintro resp e _ hok hsent
        injection hok with hok
        subst hok
        rw [hs] at hsent
        injection hsent with hsent
        subst hsent
        simp [deliverMessage, hw, hs]
      | none =>
        refine ⟨by simp [deliverMessage, hw, hs], ?_⟩
        rintro resp e _ hok hsent
        injection hok with hok
        subst hok
        rw [hs] at hsent
        cases hsent

/-- Claim C2, witness: against a repository double whose mark-sent always
errors, a delivery whose transport succeeds is downgraded to failure with
the store error recorded, and no cache write happens. -/
theorem c2_witness :
    (failingMarkSentRepo.markAsSent () msgPending.id "msg-123" 5).2 =
      some "db down" ∧
    (deliverMessage failingMarkSentRepo okWebhook true cfgDemo () msgPending
        false 5).result.success = false ∧
    (deliverMessage failingMarkSentRepo okWebhook true cfgDemo () msgPending
        false 5).result.error = some "db down" ∧
    (deliverMessage failingMarkSentRepo okWebhook true cfgDemo () msgPending
        false 5).trace.cacheWritten = false := by
  have h := (c2_success_iff_store_confirms failingMarkSentRepo okWebhook true
    cfgDemo () msgPending false 5).2
    { message := "Accepted", messageID := "msg-123" } "db down" rfl rfl rfl
  exact ⟨rfl, h.1, h.2.1, h.2.2⟩

/-- Claim C3: with `failureProbability = 1.0` every uniform draw in
`[0,1)` is below the threshold, so every message of the fetched batch is
forced to fail: its outcome is the failure record with a cause set, the
transport is never invoked, and the store's mark-failed is invoked for
each message id in order. -/
theorem c3_forced_failure {σ : Type} (repo : RepoOps σ) (webhook : Webhook)
    (redis : Bool) (cfg : MessageConfig) (st : σ) (draws : Nat → ℚ)
    (now : Nat) (batch : List Message)
    (hbatch : repo.getUnsent st cfg.batchSize = Except.ok batch)
    (hdraw : ∀ i, 0 ≤ draws i ∧ draws i < 1) :
    ProcessUnsentMessages repo webhook redis cfg st 1 draws now =
      Except.ok (batch.foldl (fun s m => (repo.markAsFailed s m.id).1) st,
        (if batch.isEmpty then none
         else some (batch.map (forcedResult now))),
        batch.map (fun _ => forcedTrace)) := by
  simp only [ProcessUnsentMessages, hbatch]
  cases batch with
  | nil => rfl
  | cons m rest =>
    simp only [List.isEmpty_cons, Bool.false_eq_true, if_false]
    rw [processLoop_forced repo webhook redis cfg draws now hdraw]

/-- Claim C3, witness: the forced-failure theorem applied to the row-list
repository on one pending message with the constant draw 0. -/
theorem c3_witness :
    ((dbRepo 5).getUnsent [msgPending] cfgDemo.batchSize
        = Except.ok [msgPending]) ∧
    ProcessUnsentMessages (dbRepo 5) okWebhook true cfgDemo [msgPending] 1
        (fun _ => 0) 5 =
      Except.ok
        ([{ msgPending with
            status := MessageStatus.failed, updatedAt := 5 }],
         some [forcedResult 5 msgPending], [forcedTrace]) := by
  have hd : ∀ i : Nat, (0:ℚ) ≤ (fun _ => (0:ℚ)) i ∧ (fun _ => (0:ℚ)) i < 1 := by
    intro i
    refine ⟨le_refl 0, ?_⟩
    show (0:ℚ) < 1
    decide
  have h := c3_forced_failure (dbRepo 5) okWebhook true cfgDemo [msgPending]
    (fun _ => 0) 5 [msgPending] rfl hd
  refine ⟨rfl, ?_⟩
  rw [h]; rfl

/-- Claim C4: on over-long content the transport receives exactly the
truncated in-flight copy — the original prefix of `maxContentLength - 3`
characters followed by `"..."` (total `maxContentLength`) when
`maxContentLength > 3`, and the bare `maxContentLength`-character prefix
otherwise — while the stored content column is untouched. -/
theorem c4_truncation (webhook : Webhook) (redisConfigured : Bool)
    (cfg : MessageConfig) (store : Store) (msg : Message) (now : Nat)
    (h : msg.content.length > cfg.maxContentLength) :
    ((deliverMessage (dbRepo now) webhook redisConfigured cfg store msg false
        now).trace.sentContent = some (deliveredContent cfg msg.content)) ∧
    (cfg.maxContentLength > 3 →
      deliveredContent cfg msg.content
          = msg.content.take (cfg.maxContentLength - 3) ++ "..." ∧
      (deliveredContent cfg msg.content).length = cfg.maxContentLength) ∧
    (cfg.maxContentLength ≤ 3 →
      deliveredContent cfg msg.content = msg.content.take cfg.maxContentLength ∧
      (deliveredContent cfg msg.content).length = cfg.maxContentLength) ∧
    ((deliverMessage (dbRepo now) webhook redisConfigured cfg store msg false
        now).repoState.map Message.content = store.map Message.content) := by
  refine ⟨?_, ?_, ?_, ?_⟩
  · cases hw : webhook msg.phoneNumber (deliveredContent cfg msg.content) with
    | error e0 => simp [deliverMessage, hw]
    | ok resp0 =>
      cases hs : ((dbRepo now).markAsSent store msg.id resp0.messageID now).2 with
      | some e0 => simp [deliverMessage, hw, hs]
      | none => simp [deliverMessage, hw, hs]
  · intro h3
    have heq : deliveredContent cfg msg.content
        = msg.content.take (cfg.maxContentLength - 3) ++ "..." := by
      unfold deliveredContent
      rw [if_pos h, if_pos h3]
    refine ⟨heq, ?_⟩
    rw [heq, String.length_append, length_take_string]
    have hle : cfg.maxContentLength - 3 ≤ msg.content.length :=
      le_trans (Nat.sub_le _ _) (le_of_lt h)
    rw [min_eq_left hle]
    have hdots : ("..." : String).length = 3 := rfl
    rw [hdots]
    exact Nat.sub_add_cancel (le_of_lt h3)
  · intro h3
    have heq : deliveredContent cfg msg.content
        = msg.content.take cfg.maxContentLength := by
      unfold deliveredContent
      rw [if_pos h, if_neg (by omega)]
    refine ⟨heq, ?_⟩
    rw [heq, length_take_string, min_eq_left (le_of_lt h)]
  · cases hw : webhook msg.phoneNumber (deliveredContent cfg msg.content) with
    | error e0 =>
      simp only [deliverMessage, hw]
      exact map_content_update store _ (fun m => by
        by_cases hid : m.id = msg.id <;> simp [MarkAsFailed, hid])
    | ok resp0 =>
      cases hs : ((dbRepo now).markAsSent store msg.id resp0.messageID now).2 with
      | some e0 =>
        simp only [deliverMessage, hw, hs]
        exact map_content_update store _ (fun m => by
          by_cases hid : m.id = msg.id <;> simp [MarkAsSent, hid])
      | none =>
        simp only [deliverMessage, hw, hs]
        exact map_content_update store _ (fun m => by
          by_cases hid : m.id = msg.id <;> simp [MarkAsSent, hid])

/-- Claim C4, witness: with `maxContentLength = 10` the 20-character
content `0123456789ABCDEFGHIJ` is delivered as `0123456...` and the
stored content is unchanged. -/
theorem c4_witness :
    msgPending.content.length > cfgDemo.maxContentLength ∧
    (deliverMessage (dbRepo 5) okWebhook true cfgDemo [msgPending] msgPending
        false 5).trace.sentContent = some "0123456..." ∧
    (deliverMessage (dbRepo 5) okWebhook true cfgDemo [msgPending] msgPending
        false 5).repoState.map Message.content = [msgPending.content] := by
  have h := c4_truncation okWebhook true cfgDemo [msgPending] msgPending 5
    (by decide)
  refine ⟨by decide, ?_, ?_⟩
  · rw [h.1]; rfl
  · rw [h.2.2.2]; rfl

/-- Claim C5, counterexample: a pass whose batch is empty (the service
returned `nil` results) leaves the consecutive-all-failed counter at its
old value (1 here), where the claim's "otherwise it is reset to 0" demands
0. -/
theorem c5_cex :
    ¬ ((processMessages streakSt (Except.ok none) 0).state.consecutiveAllFailCount
        = 0) := by decide

/-- Claim C5 (amended): every pass increments the run count by 1; a pass
that processed a batch adds the batch's success count to the cumulative
sent counter and, for a non-empty batch, increments the
consecutive-all-failed counter on zero successes and resets it to 0
otherwise; a pass with no batch (empty fetch) or a service error leaves
the sent counter and the consecutive-all-failed counter unchanged. -/
theorem c5_pass_counters (st : SchedulerState)
    (res : Except String (Option (List SendResult))) (now : Nat) :
    (processMessages st res now).state.runsCount = st.runsCount + 1 ∧
    (∀ results, res = Except.ok (some results) →
      (processMessages st res now).state.messagesSent
          = st.messagesSent + successCount results ∧
      (results ≠ [] →
        (processMessages st res now).state.consecutiveAllFailCount =
          (if successCount results = 0 then st.consecutiveAllFailCount + 1
           else 0))) ∧
    ((res = Except.ok none ∨ ∃ e, res = Except.error e) →
      (processMessages st res now).state.messagesSent = st.messagesSent ∧
      (processMessages st res now).state.consecutiveAllFailCount
          = st.consecutiveAllFailCount) := by
  refine ⟨?_, ?_, ?_⟩
  · cases res with
    | error e => rfl
    | ok o => cases o with
      | none => rfl
      | some results =>
        simp only [processMessages]
        split <;> rfl
  · rintro results rfl
    simp only [processMessages]
    by_cases hall : results.all (fun r => !r.success) = true
    · by_cases hne : results.length > 0
      · rw [if_pos ⟨hall, hne⟩]
        refine ⟨rfl, fun _ => ?_⟩
        rw [if_pos (allFailed_iff results |>.mp hall)]
      · have hnil : results = [] := by
          cases results with
          | nil => rfl
          | cons a l => exact absurd (Nat.succ_pos _) hne
        subst hnil
        exact ⟨rfl, fun hne' => absurd rfl hne'⟩
    · have hcond : ¬ ((results.all (fun r => !r.success) = true) ∧
          results.length > 0) := fun hc => hall hc.1
      rw [if_neg hcond]
      refine ⟨rfl, fun hne => ?_⟩
      rw [if_neg (fun h0 => hall ((allFailed_iff results).mpr h0))]
  · rintro (rfl | ⟨e, rfl⟩) <;> exact ⟨rfl, rfl⟩

/-- Claim C5, witness: the batch `[success, fail, success]` adds 2 to the
sent counter, 1 to the run count, and resets the streak to 0. -/
theorem c5_witness :
    (processMessages runningSt (Except.ok (some mixedResults)) 9).state.messagesSent
        = runningSt.messagesSent + 2 ∧
    (processMessages runningSt (Except.ok (some mixedResults)) 9).state.runsCount
        = runningSt.runsCount + 1 ∧
    (processMessages runningSt
        (Except.ok (some mixedResults)) 9).state.consecutiveAllFailCount = 0 := by
  have h := c5_pass_counters runningSt (Except.ok (some mixedResults)) 9
  have h2 := h.2.1 mixedResults rfl
  refine ⟨?_, h.1, ?_⟩
  · rw [h2.1]; decide
  · rw [h2.2 (by decide)]; decide

/-- Claim C6, counterexample: `StartWithParams` on an already-running
scheduler resets the consecutive-all-failed counter (2 becomes 0), where
the claim's "does not reset any counters" demands it unchanged. -/
theorem c6_cex :
    (StartWithParams runningSt 7 0 "http://alerts" 4).state.consecutiveAllFailCount
      ≠ runningSt.consecutiveAllFailCount := by decide

/-- Claim C6 (amended): on a running scheduler a plain `Start` is a
complete no-op that launches no second loop; `StartWithParams` also
launches no second loop and leaves `running`, the cumulative sent count,
the run count and the last-run time unchanged, but it overwrites the
parameters and resets the consecutive-all-failed counter to 0 before
checking `running` (the HTTP start handler avoids this by checking
`IsRunning` first). -/
theorem c6_start_idempotent (st : SchedulerState) (h : st.running = true) :
    Start st = { state := st, launched := false } ∧
    (∀ (im : Int) (fr : ℚ) (aw : String) (ath : Int),
      (StartWithParams st im fr aw ath).launched = false ∧
      (StartWithParams st im fr aw ath).state.running = true ∧
      (StartWithParams st im fr aw ath).state.messagesSent = st.messagesSent ∧
      (StartWithParams st im fr aw ath).state.runsCount = st.runsCount ∧
      (StartWithParams st im fr aw ath).state.lastRunAt = st.lastRunAt ∧
      (StartWithParams st im fr aw ath).state.consecutiveAllFailCount = 0) := by
  constructor
  · simp [Start, h]
  · intro im fr aw ath
    simp [StartWithParams, Start, h]

/-- Claim C6, witness: the amended theorem at a concrete running state. -/
theorem c6_witness :
    runningSt.running = true ∧
    (StartWithParams runningSt 7 0 "http://alerts" 4).launched = false ∧
    (StartWithParams runningSt 7 0 "http://alerts" 4).state.runsCount
        = runningSt.runsCount := by
  have h := c6_start_idempotent runningSt (by decide)
  have h2 := h.2 7 0 "http://alerts" 4
  exact ⟨by decide, h2.1, h2.2.2.2.1⟩

/-- Claim C7, counterexample: a pass with an empty batch attempts no
alert even though the streak (1) already meets the threshold (1) and an
endpoint is configured, falsifying the claim's "attempted if and only if"
over every pass. -/
theorem c7_cex :
    ¬ (((processMessages streakSt (Except.ok none) 0).alertAttempted = true) ↔
       ((processMessages streakSt
            (Except.ok none) 0).state.consecutiveAllFailCount
           ≥ streakSt.alertThreshold ∧
        streakSt.alertThreshold > 0 ∧ streakSt.alertWebhook ≠ "")) := by decide

/-- Claim C7 (amended): an alert invocation is attempted exactly on the
passes that processed a non-empty batch with zero successes and whose
post-update consecutive-all-failed counter meets a positive threshold
with a non-empty endpoint configured; the decision does not depend on the
last-alert timestamp (so it re-fires on every qualifying pass, with no
deduplication window), and the alert side effect touches no counter. -/
theorem c7_alert_decision (st : SchedulerState)
    (res : Except String (Option (List SendResult))) (now : Nat) :
    ((processMessages st res now).alertAttempted = true ↔
      (∃ results, res = Except.ok (some results) ∧ results ≠ [] ∧
        successCount results = 0 ∧
        (processMessages st res now).state.consecutiveAllFailCount
            ≥ st.alertThreshold ∧
        st.alertThreshold > 0 ∧ st.alertWebhook ≠ "")) ∧
    (∀ t, (processMessages { st with lastAlertSentAt := t } res now).alertAttempted
        = (processMessages st res now).alertAttempted) ∧
    (∀ (s : SchedulerState) (httpStatus anow : Nat),
      (sendAlertEffect s httpStatus anow).messagesSent = s.messagesSent ∧
      (sendAlertEffect s httpStatus anow).runsCount = s.runsCount ∧
      (sendAlertEffect s httpStatus anow).consecutiveAllFailCount
          = s.consecutiveAllFailCount) := by
  refine ⟨⟨?_, ?_⟩, ?_, ?_⟩
  · intro ha
    cases res with
    | error e => simp [processMessages] at ha
    | ok o => cases o with
      | none => simp [processMessages] at ha
      | some results =>
        simp only [processMessages] at ha
        by_cases hc : (results.all (fun r => !r.success) = true) ∧
            results.length > 0
        · rw [if_pos hc] at ha
          simp only [Bool.and_eq_true, decide_eq_true_eq] at ha
          refine ⟨results, rfl, ?_, (allFailed_iff results).mp hc.1, ?_,
            ha.1.2, ha.2⟩
          · intro h0
            subst h0
            exact absurd hc.2 (by decide)
          · simp only [processMessages]
            rw [if_pos hc]
            exact ha.1.1
        · rw [if_neg hc] at ha
          cases ha
  · rintro ⟨results, rfl, hne, h0, hge, hth, hweb⟩
    have hlen : results.length > 0 := by
      cases results with
      | nil => exact absurd rfl hne
      | cons a l => exact Nat.succ_pos _
    have hall : results.all (fun r => !r.success) = true :=
      (allFailed_iff results).mpr h0
    simp only [processMessages] at hge ⊢
    rw [if_pos ⟨hall, hlen⟩] at hge ⊢
    simp only [Bool.and_eq_true, decide_eq_true_eq]
    exact ⟨⟨hge, hth⟩, hweb⟩
  · intro t
    cases res with
    | error e => rfl
    | ok o => cases o with
      | none => rfl
      | some results =>
        simp only [processMessages]
        split <;> rfl
  · intro s httpStatus anow
    unfold sendAlertEffect
    split <;> exact ⟨rfl, rfl, rfl⟩

/-- Claim C7, witness: an all-failed two-message pass on a scheduler
whose streak meets its threshold attempts the alert. -/
theorem c7_witness :
    (processMessages streakSt (Except.ok (some failResults)) 9).alertAttempted
      = true := by
  have h := (c7_alert_decision streakSt (Except.ok (some failResults)) 9).1
  exact h.mpr ⟨failResults, rfl, by decide, by decide, by decide, by decide,
    by decide⟩

/-- Claim C8: a pass whose fetched batch of Pending messages is empty
changes nothing but the run counter and last-run time: the store is
untouched, no delivery is attempted, no alert is attempted, and the sent
and consecutive-all-failed counters keep their values. -/
theorem c8_empty_batch (webhook : Webhook) (redisConfigured : Bool)
    (cfg : MessageConfig) (store : Store) (st : SchedulerState)
    (draws : Nat → ℚ) (now : Nat)
    (h : GetUnsent store cfg.batchSize = []) :
    schedulerPass webhook redisConfigured cfg store st draws now =
      (store,
       { state := { st with
                    lastRunAt := some now,
                    runsCount := st.runsCount + 1 },
         alertAttempted := false },
       []) := by
  simp [schedulerPass, ProcessUnsentMessages, dbRepo, h, processMessages]

/-- Claim C8, witness: the empty-batch theorem on a store holding only a
Sent row. -/
theorem c8_witness :
    GetUnsent [msgSent] cfgDemo.batchSize = [] ∧
    schedulerPass okWebhook true cfgDemo [msgSent] runningSt (fun _ => 0) 9 =
      ([msgSent],
       { state := { runningSt with
                    lastRunAt := some 9,
                    runsCount := runningSt.runsCount + 1 },
         alertAttempted := false },
       []) :=
  ⟨by decide,
   c8_empty_batch okWebhook true cfgDemo [msgSent] runningSt (fun _ => 0) 9
     (by decide)⟩

/-- Claim C9: replay-one succeeds exactly when a Failed row with the
given id exists; on success the matching row becomes Pending with both
nullable fields cleared and every other row is untouched; otherwise the
distinct "no failed message found" condition is signalled and the table
is unchanged. -/
theorem c9_replayOne (store : Store) (id : Int) (now : Nat) :
    ((ReplayFailedByID store id now).2 = none ↔
      ∃ m ∈ store, m.id = id ∧ m.status = MessageStatus.failed) ∧
    ((ReplayFailedByID store id now).2 ≠ none →
      (ReplayFailedByID store id now).1 = store ∧
      (ReplayFailedByID store id now).2 =
        some ("no failed message found with id " ++ toString id)) ∧
    (ReplayFailedByID store id now).1 = store.map (fun m =>
      if m.id = id ∧ m.status = MessageStatus.failed then
        { m with
          status := MessageStatus.pending, messageID := none,
          sentAt := none, updatedAt := now }
      else m) := by
  have hfst : (ReplayFailedByID store id now).1 = store.map (fun m =>
      if m.id = id ∧ m.status = MessageStatus.failed then
        { m with
          status := MessageStatus.pending, messageID := none,
          sentAt := none, updatedAt := now }
      else m) := rfl
  by_cases h : (store.filter (fun m =>
      m.id = id ∧ m.status = MessageStatus.failed)).length = 0
  · have hnone : ∀ m ∈ store,
        ¬ (m.id = id ∧ m.status = MessageStatus.failed) := by
      rw [List.length_eq_zero, List.filter_eq_nil_iff] at h
      simpa using h
    have hsnd : (ReplayFailedByID store id now).2 =
        some ("no failed message found with id " ++ toString id) := by
      show (if (store.filter (fun m =>
          m.id = id ∧ m.status = MessageStatus.failed)).length = 0 then
          some ("no failed message found with id " ++ toString id)
        else none) = _
      rw [if_pos h]
    refine ⟨?_, fun _ => ⟨?_, hsnd⟩, hfst⟩
    · rw [hsnd]
      constructor
      · intro hc; cases hc
      · rintro ⟨m, hm, hid, hst⟩
        exact absurd ⟨hid, hst⟩ (hnone m hm)
    · rw [hfst]
      conv_rhs => rw [← List.map_id store]
      exact List.map_congr_left (fun m hm => by
        rw [if_neg (hnone m hm)]; rfl)
  · have hsnd : (ReplayFailedByID store id now).2 = none := by
      show (if (store.filter (fun m =>
          m.id = id ∧ m.status = MessageStatus.failed)).length = 0 then
          some ("no failed message found with id " ++ toString id)
        else none) = _
      rw [if_neg h]
    have hex : ∃ m ∈ store, m.id = id ∧ m.status = MessageStatus.failed := by
      rw [List.length_eq_zero, List.filter_eq_nil_iff] at h
      push_neg at h
      obtain ⟨m, hm, hp⟩ := h
      simp only [decide_eq_true_eq] at hp
      exact ⟨m, hm, hp⟩
    exact ⟨by rw [hsnd]; simpa using hex, fun hne => absurd hsnd hne, hfst⟩

/-- Claim C9, witness: replay-one on a Sent row signals the failure
condition and changes nothing; on a Failed row it succeeds. -/
theorem c9_witness :
    (ReplayFailedByID [msgSent] 2 7).1 = [msgSent] ∧
    (ReplayFailedByID [msgSent] 2 7).2 =
      some ("no failed message found with id " ++ toString (2 : Int)) ∧
    (ReplayFailedByID [msgFailed] 3 7).2 = none := by
  have h := (c9_replayOne [msgSent] 2 7).2.1 (by decide)
  refine ⟨h.1, h.2, ?_⟩
  exact ((c9_replayOne [msgFailed] 3 7).1).mpr
    ⟨msgFailed, by decide, by decide, by decide⟩

/-- Claim C10: service-level message creation rejects content longer than
`maxContentLength` with the exact error text and performs no store write;
content within the limit is delegated unchanged to the repository's
create operation. -/
theorem c10_createMessage (cfg : MessageConfig) (store : Store)
    (content phoneNumber : String) (now : Nat) :
    (content.length > cfg.maxContentLength →
      CreateMessage cfg store content phoneNumber now =
        (store, Except.error ("content exceeds maximum length of "
          ++ toString cfg.maxContentLength ++ " characters"), false)) ∧
    (content.length ≤ cfg.maxContentLength →
      CreateMessage cfg store content phoneNumber now =
        ((Create store content phoneNumber now).1,
         Except.ok (Create store content phoneNumber now).2, true)) := by
  constructor
  · intro h
    simp only [CreateMessage, if_pos h]
  · intro h
    simp only [CreateMessage, if_neg (Nat.not_lt.mpr h)]

/-- Claim C10, witness: creating a 13-character message under a
10-character limit yields the documented error and writes nothing. -/
theorem c10_witness :
    ("0123456789ABC".length > cfgDemo.maxContentLength) ∧
    CreateMessage cfgDemo [] "0123456789ABC" "+905551234567" 0 =
      ([], Except.error "content exceeds maximum length of 10 characters",
       false) := by
  refine ⟨by decide, ?_⟩
  have h := (c10_createMessage cfgDemo [] "0123456789ABC" "+905551234567" 0).1
    (by decide)
  rw [h]; rfl

end InsiderMessageService
